import Mathlib

/-!
Shallow embedding of the upload-orchestration core of the
`validador-documental-colombia` backend (FastAPI service validating Colombian
identity documents).

The embedding follows the Python source under `src/backend/app/`:
* `models.py`    — enums, `ExtractedField`/`ExtractedData`, lookup tables,
                   request/response models;
* `state_machine.py` — `process_upload` and its per-state handlers;
* `firestore_service.py` — session store with lazy TTL expiry and the
                   indefinite extracted-data store;
* `storage_service.py`  — blob store keyed by `sessions/{id}/{filename}` paths;
* `gemini_service.py`   — classification client with one retry and a fixed
                   fallback result;
* `main.py`      — the `POST /api/v1/validate` handler `validate_document`.

External collaborators (image enhancement, PDF rendering, signed URLs, the
model call itself) are abstracted as pure functions supplied in an `Env`
record; stores are explicit state threaded through every operation, and each
operation also reports the observable effects it performed as a list of
`Event`s.  Python floats are modelled as rationals; Python `None` as
`Option`; a Python exception escaping a handler is `Except.error` (the store
reached at the raise point is still returned, matching the fact that earlier
writes have already been committed).
-/

namespace Validador

/-! ### Enums and lookup tables (`models.py`) -/

inductive DocumentType
  | cedula_ciudadania
  | tarjeta_identidad
  | registro_civil_nacimiento
  | registro_civil_matrimonio
  | registro_civil_defuncion
  | unknown
deriving DecidableEq, Repr

inductive DocumentSide
  | front
  | back
  | full_document
  | single_page
  | unknown
deriving DecidableEq, Repr

inductive FlowStatus
  | needs_back_side
  | needs_front_side
  | needs_better_image
  | completed
  | invalid_document
  | error
deriving DecidableEq, Repr

inductive FlowState
  | AWAITING_FIRST_UPLOAD
  | AWAITING_SECOND_SIDE
  | PROCESSING_PDF
  | COMPLETED
  | ERROR
deriving DecidableEq, Repr

def TWO_SIDED_DOCUMENTS : List DocumentType :=
  [.cedula_ciudadania, .tarjeta_identidad]

def SINGLE_PAGE_DOCUMENTS : List DocumentType :=
  [.registro_civil_nacimiento, .registro_civil_matrimonio, .registro_civil_defuncion]

/-- The `.value` string of the Python enum member. -/
def DocumentType.value : DocumentType → String
  | .cedula_ciudadania => "cedula_ciudadania"
  | .tarjeta_identidad => "tarjeta_identidad"
  | .registro_civil_nacimiento => "registro_civil_nacimiento"
  | .registro_civil_matrimonio => "registro_civil_matrimonio"
  | .registro_civil_defuncion => "registro_civil_defuncion"
  | .unknown => "unknown"

def DOCUMENT_TYPE_LABELS : DocumentType → String
  | .cedula_ciudadania => "Cédula de Ciudadanía"
  | .tarjeta_identidad => "Tarjeta de Identidad"
  | .registro_civil_nacimiento => "Registro Civil de Nacimiento"
  | .registro_civil_matrimonio => "Registro Civil de Matrimonio"
  | .registro_civil_defuncion => "Registro Civil de Defunción"
  | .unknown => "Documento desconocido"

/-- The closed set of field names of the pydantic model `ExtractedData`. -/
inductive FieldName
  | numeroDocumento
  | nombres
  | apellidos
  | fechaNacimiento
  | lugarNacimiento
  | sexo
  | fechaExpedicion
  | lugarExpedicion
  | nombresPadre
  | apellidosPadre
  | nombresMadre
  | apellidosMadre
  | contrayente1Nombres
  | contrayente1Apellidos
  | contrayente1Documento
  | contrayente2Nombres
  | contrayente2Apellidos
  | contrayente2Documento
  | fechaDefuncion
  | lugarDefuncion
deriving DecidableEq, Repr, Fintype

structure ExtractedField where
  value : Option String := none
  confidence : Rat := 0
deriving DecidableEq, Repr

/-- `ExtractedData` is a pydantic model with one `ExtractedField` per name in
`FieldName`; the Python code only ever reads it with `getattr` over
`model_fields`, so we embed it as a total map. -/
def ExtractedData : Type := FieldName → ExtractedField

instance : DecidableEq ExtractedData :=
  fun a b => Fintype.decidablePiFintype a b

/-- All-default instance: every field `value=None, confidence=0.0`. -/
def ExtractedData.default : ExtractedData := fun _ => {}

def FIELD_LABELS : FieldName → String
  | .numeroDocumento => "Número de documento"
  | .nombres => "Nombres"
  | .apellidos => "Apellidos"
  | .fechaNacimiento => "Fecha de nacimiento"
  | .lugarNacimiento => "Lugar de nacimiento"
  | .sexo => "Sexo"
  | .fechaExpedicion => "Fecha de expedición"
  | .lugarExpedicion => "Lugar de expedición"
  | .nombresPadre => "Nombres del padre"
  | .apellidosPadre => "Apellidos del padre"
  | .nombresMadre => "Nombres de la madre"
  | .apellidosMadre => "Apellidos de la madre"
  | .contrayente1Nombres => "Nombres contrayente 1"
  | .contrayente1Apellidos => "Apellidos contrayente 1"
  | .contrayente1Documento => "Documento contrayente 1"
  | .contrayente2Nombres => "Nombres contrayente 2"
  | .contrayente2Apellidos => "Apellidos contrayente 2"
  | .contrayente2Documento => "Documento contrayente 2"
  | .fechaDefuncion => "Fecha de defunción"
  | .lugarDefuncion => "Lugar de defunción"

/-- `CRITICAL_FIELDS.get(doc_type, ["numeroDocumento", "nombres", "apellidos"])`
as used by `_build_alerts`; the Python dict has no entry for `UNKNOWN`, so that
type gets the `.get` default. -/
def CRITICAL_FIELDS : DocumentType → List FieldName
  | .cedula_ciudadania => [.numeroDocumento, .nombres, .apellidos, .fechaNacimiento]
  | .tarjeta_identidad => [.numeroDocumento, .nombres, .apellidos, .fechaNacimiento]
  | .registro_civil_nacimiento =>
      [.numeroDocumento, .nombres, .apellidos, .fechaNacimiento,
       .nombresPadre, .apellidosPadre, .nombresMadre, .apellidosMadre]
  | .registro_civil_matrimonio =>
      [.numeroDocumento, .nombres, .apellidos,
       .contrayente1Nombres, .contrayente1Apellidos,
       .contrayente2Nombres, .contrayente2Apellidos]
  | .registro_civil_defuncion => [.numeroDocumento, .nombres, .apellidos, .fechaDefuncion]
  | .unknown => [.numeroDocumento, .nombres, .apellidos]

structure GeminiClassificationResult where
  documentType : DocumentType := .unknown
  documentSide : DocumentSide := .unknown
  isValidDocument : Bool := false
  isLegible : Bool := false
  containsBothSides : Bool := false
  userFeedback : String := ""
  extractedData : ExtractedData := ExtractedData.default

structure ValidateResponse where
  sessionId : String
  status : FlowStatus
  documentType : DocumentType := .unknown
  detectedSide : DocumentSide := .unknown
  isValid : Bool := false
  isLegible : Bool := false
  feedback : String := ""
  generatedPdfUrl : Option String := none
  extractedData : Option ExtractedData := none
  alerts : List String := []
  label : Option String := none
deriving DecidableEq

/-! ### Merge and alert helpers (`state_machine.py`) -/

/-- The source's confidence threshold `0.85`, written in reduced-fraction form
so that kernel evaluation is not blocked by the irreducible `Rat.ofScientific`;
`lowConfidenceThreshold_eq_ofScientific` below proves it equals the literal. -/
def lowConfidenceThreshold : Rat := Rat.mk' 17 20

theorem lowConfidenceThreshold_eq_ofScientific : lowConfidenceThreshold = (0.85 : Rat) := by
  rw [show (0.85 : Rat) = Rat.ofScientific 85 true 2 from rfl, Rat.ofScientific_true_def]
  decide

/-- Python `int(q * 100)` for an exact rational `q`: truncation toward zero,
computed on the numerator so that the (irreducible) `Rat.mul` is not needed:
`trunc(q·100) = tdiv(num·100, den)`. -/
def pctOf (q : Rat) : Int := Int.tdiv (q.num * 100) q.den

/-- One alert line of `_build_alerts`. -/
def alertMessage (lab : String) (pct : Int) : String :=
  "Confianza baja en \x27" ++ lab ++ "\x27 (" ++ toString pct ++ "%). Verifique manualmente."

/-- `_build_alerts(extracted, doc_type)`: loop over the critical-field list,
appending a message whenever the field has a non-null value and confidence
below 0.85. -/
def buildAlerts (extracted : ExtractedData) (doc_type : DocumentType) : List String :=
  (CRITICAL_FIELDS doc_type).foldl
    (fun alerts field_name =>
      let field := extracted field_name
      if field.value ≠ none ∧ field.confidence < lowConfidenceThreshold then
        alerts ++ [alertMessage (FIELD_LABELS field_name) (pctOf field.confidence)]
      else alerts)
    []

/-- `_should_request_retry(alerts)`: true iff 2+ critical fields have low
confidence. -/
def shouldRequestRetry (alerts : List String) : Bool :=
  decide (2 ≤ alerts.length)

/-- The per-field body of the loop in `_merge_extracted_data`. -/
def mergeField (first_field second_field : ExtractedField) : ExtractedField :=
  if second_field.value ≠ none ∧ first_field.value = none then second_field
  else if first_field.value ≠ none ∧ second_field.value = none then first_field
  else if first_field.value ≠ none ∧ second_field.value ≠ none then
    (if first_field.confidence ≤ second_field.confidence then second_field else first_field)
  else first_field

/-- `_merge_extracted_data(first, second)`: the loop applies `mergeField` to
every field of the model. -/
def mergeExtractedData (first second : ExtractedData) : ExtractedData :=
  fun field_name => mergeField (first field_name) (second field_name)

/-! ### Stores (`firestore_service.py`, `storage_service.py`) -/

/-- Raw file contents are opaque to the orchestrator; we only track identity. -/
abbrev Bytes := Nat

/-- One Firestore session document (collection
`document_validation_sessions`).  `sides_received` is the two-slot mapping
`{front, back}`; a slot holds the GCS object path once filled. -/
structure Session where
  session_id : String
  flow_state : FlowState
  document_type : DocumentType
  sides_received_front : Option String := none
  sides_received_back : Option String := none
  single_page_path : Option String := none
  final_pdf_path : Option String := none
  extracted_data_first_side : Option ExtractedData := none
  label : Option String := none
  created_at : Nat := 0
  updated_at : Nat := 0
  expires_at : Nat := 0
deriving DecidableEq

/-- One document of the indefinite `extracted_documents` collection. -/
structure ExtractedRecord where
  session_id : String
  label : Option String
  document_type : DocumentType
  extracted_data : ExtractedData
  created_at : Nat
deriving DecidableEq

/-- Simple keyed stores as association lists. -/
def lookupA {α : Type} : List (String × α) → String → Option α
  | [], _ => none
  | (k, v) :: rest, key => if k = key then some v else lookupA rest key

/-- Overwrite-or-append, the semantics of a keyed `.set`/`.upload`. -/
def setA {α : Type} : List (String × α) → String → α → List (String × α)
  | [], key, v => [(key, v)]
  | (k, w) :: rest, key, v =>
      if k = key then (k, v) :: rest else (k, w) :: setA rest key v

/-- In-place update of the entry under `key`, the semantics of `.update`. -/
def mapA {α : Type} : List (String × α) → String → (α → α) → List (String × α)
  | [], _, _ => []
  | (k, w) :: rest, key, f =>
      if k = key then (k, f w) :: rest else (k, w) :: mapA rest key f

/-- Delete the entry under `key`. -/
def removeA {α : Type} : List (String × α) → String → List (String × α)
  | [], _ => []
  | (k, w) :: rest, key =>
      if k = key then removeA rest key else (k, w) :: removeA rest key

/-- Combined external state: the session collection, the GCS blob store, the
indefinite extracted-data collection, the current time and the UUID that
`create_session` would mint next. -/
structure Store where
  sessions : List (String × Session) := []
  blobs : List (String × Bytes) := []
  extracted : List (String × ExtractedRecord) := []
  now : Nat := 0
  freshId : String := "fresh-uuid"
deriving DecidableEq

/-- Observable side effects of one orchestration run. -/
inductive Event
  | classifyCall (context : String)
  | blobUpload (path : String)
  | sessionCreated (id : String)
  | sessionUpdated (id : String)
  | sessionDeleted (id : String)
  | extractedSaved (id : String) (label : Option String)
deriving DecidableEq, Repr

def SESSION_TTL_HOURS : Nat := 24

/-- `firestore_service.create_session`. -/
def create_session (st : Store) : Session × Store × List Event :=
  let s : Session :=
    { session_id := st.freshId
      flow_state := .AWAITING_FIRST_UPLOAD
      document_type := .unknown
      created_at := st.now
      updated_at := st.now
      expires_at := st.now + SESSION_TTL_HOURS }
  (s, { st with sessions := setA st.sessions st.freshId s }, [.sessionCreated st.freshId])

/-- `firestore_service.get_session`: `None` on missing; on a session past its
`expires_at` the record is deleted as a side effect and `None` is returned. -/
def get_session (st : Store) (sid : String) : Option Session × Store × List Event :=
  match lookupA st.sessions sid with
  | none => (none, st, [])
  | some s =>
      if s.expires_at < st.now then
        (none, { st with sessions := removeA st.sessions sid }, [.sessionDeleted sid])
      else (some s, st, [])

/-- `firestore_service.update_session` (also refreshes `updated_at`). -/
def update_session (st : Store) (sid : String) (f : Session → Session) :
    Store × List Event :=
  ({ st with sessions := mapA st.sessions sid (fun s => { f s with updated_at := st.now }) },
   [.sessionUpdated sid])

/-- `firestore_service.save_extracted_data`: indefinite retention, keyed by
session id. -/
def save_extracted_data (st : Store) (sid : String) (lab : Option String)
    (dt : DocumentType) (ed : ExtractedData) : Store × List Event :=
  let record : ExtractedRecord :=
    { session_id := sid, label := lab, document_type := dt,
      extracted_data := ed, created_at := st.now }
  ({ st with extracted := setA st.extracted sid record },
   [.extractedSaved sid lab])

/-- `storage_service.session_path`. -/
def session_path (sid filename : String) : String :=
  "sessions/" ++ sid ++ "/" ++ filename

/-- `storage_service.upload_bytes` (content type is irrelevant to the model). -/
def upload_bytes (st : Store) (data : Bytes) (path : String) : Store × List Event :=
  ({ st with blobs := setA st.blobs path data }, [.blobUpload path])

/-- `storage_service.download_bytes`; a `None` path raises in Python
(`None.replace`), and a missing object raises in the GCS client. -/
def download_bytes (st : Store) : Option String → Except String Bytes
  | none => .error "download path is null"
  | some p =>
      match lookupA st.blobs p with
      | some b => .ok b
      | none => .error ("blob not found: " ++ p)

/-! ### Classification client (`gemini_service.py`) -/

/-- The fixed fallback `GeminiClassificationResult` returned after two failed
attempts (its `extractedData` is the pydantic default: all fields null with
confidence 0.0). -/
def geminiFallbackResult : GeminiClassificationResult :=
  { documentType := .unknown
    documentSide := .unknown
    isValidDocument := false
    isLegible := false
    containsBothSides := false
    userFeedback := "No pudimos analizar el documento en este momento. Por favor, intenta de nuevo."
    extractedData := ExtractedData.default }

/-- `gemini_service.classify_document`: the loop `for attempt in range(2)`.
`attempt n = none` models the n-th model call failing (raising); `some r`
models it returning the parsed result `r`.  The returned `Nat` counts the
model calls actually made. -/
def classify_document (attempt : Nat → Option GeminiClassificationResult) :
    GeminiClassificationResult × Nat :=
  match attempt 0 with
  | some r => (r, 1)
  | none =>
      match attempt 1 with
      | some r => (r, 2)
      | none => (geminiFallbackResult, 2)

/-! ### Orchestrator (`state_machine.py`) -/

/-- Pure stand-ins for the external collaborators called by the orchestrator.
`classify` receives the (possibly enhanced) bytes, the mime type and the
context hint — it is the single classification call made per upload. -/
structure Env where
  enhance_image : Bytes → Bytes
  generate_two_sided_pdf : Bytes → Bytes → DocumentType → Bytes
  generate_single_page_pdf : Bytes → DocumentType → Bytes
  is_valid_pdf : Bytes → Bool
  generate_signed_url : String → String
  classify : Bytes → String → String → GeminiClassificationResult

/-- Result of one orchestration entry point: the response (or the Python
exception that escaped), the final store, and the effects performed. -/
def ProcResult : Type := Except String ValidateResponse × Store × List Event

def storeOf (r : ProcResult) : Store := r.2.1
def evsOf (r : ProcResult) : List Event := r.2.2

/-- Python truthiness of an optional string (`None` and `""` are falsy), as
used on `sides_received` slots. -/
def truthy : Option String → Bool
  | none => false
  | some s => decide (s ≠ "")

/-- Python `label or session.get("label")`: falls through on `None` and on the
empty string. -/
def pyOr (a b : Option String) : Option String :=
  match a with
  | some l => if l = "" then b else some l
  | none => b

def alreadyCompletedFeedback : String :=
  "Esta sesión ya fue completada. Envía el documento nuevamente para iniciar una nueva validación."

def sessionExpiredFeedback : String :=
  "La sesión no existe o ha expirado. Envía el documento nuevamente para iniciar una nueva sesión."

def unexpectedStateFeedback : String :=
  "Estado de sesión inesperado. Por favor, inicia una nueva sesión."

def couldNotProcessFeedback : String :=
  "No se pudo procesar el documento. Por favor, intenta de nuevo."

def frontAgainFeedback : String :=
  "Ya recibimos la cara frontal. Por favor, envía la cara TRASERA del documento."

def backAgainFeedback : String :=
  "Ya recibimos la cara trasera. Por favor, envía la cara FRONTAL del documento."

def wrongTypeFeedback (expected : DocumentType) : String :=
  "El documento enviado parece ser un tipo diferente al esperado. " ++
  "Se espera continuar con la misma " ++ DOCUMENT_TYPE_LABELS expected ++ ". " ++
  "Por favor, envía la cara faltante del mismo documento."

/-- `_build_context(session)`. -/
def buildContext (session : Session) : String :=
  if session.flow_state ≠ .AWAITING_SECOND_SIDE then ""
  else if truthy session.sides_received_front ∧ ¬ truthy session.sides_received_back then
    "Se espera la cara TRASERA de un documento tipo \x27" ++
      session.document_type.value ++ "\x27. Ya se recibió la cara frontal."
  else if truthy session.sides_received_back ∧ ¬ truthy session.sides_received_front then
    "Se espera la cara FRONTAL de un documento tipo \x27" ++
      session.document_type.value ++ "\x27. Ya se recibió la cara trasera."
  else ""

/-- `_save_first_side`. -/
def saveFirstSide (session_id : String) (doc_type : DocumentType) (side : DocumentSide)
    (classification : GeminiClassificationResult) (enhanced_bytes : Bytes)
    (label : Option String) (st : Store) (evs : List Event) : ProcResult :=
  let filename := if side = .front then "enhanced_front.jpg" else "enhanced_back.jpg"
  let gcs_path := session_path session_id filename
  let (st1, e1) := upload_bytes st enhanced_bytes gcs_path
  let extracted := classification.extractedData
  let (st2, e2) := update_session st1 session_id (fun s =>
    { s with flow_state := .AWAITING_SECOND_SIDE
             document_type := doc_type
             sides_received_front := if side = .front then some gcs_path else s.sides_received_front
             sides_received_back := if side = .front then s.sides_received_back else some gcs_path
             extracted_data_first_side := some extracted
             label := label })
  let status := if side = .front then FlowStatus.needs_back_side else FlowStatus.needs_front_side
  let alerts := buildAlerts extracted doc_type
  (.ok { sessionId := session_id, status := status, documentType := doc_type,
         detectedSide := side, isValid := true, isLegible := true,
         feedback := classification.userFeedback, extractedData := some extracted,
         alerts := alerts, label := label },
   st2, evs ++ e1 ++ e2)

/-- `_complete_two_sides`: upload the new side, download the stored one,
render and upload the PDF, merge, gate on alerts, finalise the session, and
persist the merged data only when the status stays `COMPLETED`.  The blob
upload precedes the download of the other slot, so a failing download leaves
the upload committed but the session untouched. -/
def completeTwoSides (env : Env) (session_id : String) (session : Session)
    (doc_type : DocumentType) (new_side : DocumentSide)
    (classification : GeminiClassificationResult) (enhanced_bytes : Bytes)
    (label : Option String) (st : Store) (evs : List Event) : ProcResult :=
  let filename := if new_side = .front then "enhanced_front.jpg" else "enhanced_back.jpg"
  let gcs_path := session_path session_id filename
  let (st1, e1) := upload_bytes st enhanced_bytes gcs_path
  let dl := if new_side = .front then download_bytes st1 session.sides_received_back
            else download_bytes st1 session.sides_received_front
  match dl with
  | .error e => (.error e, st1, evs ++ e1)
  | .ok other_bytes =>
    let front_bytes := if new_side = .front then enhanced_bytes else other_bytes
    let back_bytes := if new_side = .front then other_bytes else enhanced_bytes
    let pdf_bytes := env.generate_two_sided_pdf front_bytes back_bytes doc_type
    let pdf_path := session_path session_id "final.pdf"
    let (st2, e2) := upload_bytes st1 pdf_bytes pdf_path
    let signed_url := env.generate_signed_url pdf_path
    let first_side_data := session.extracted_data_first_side.getD ExtractedData.default
    let merged_data := mergeExtractedData first_side_data classification.extractedData
    let effective_label := pyOr label session.label
    let alerts := buildAlerts merged_data doc_type
    let status := if shouldRequestRetry alerts then FlowStatus.needs_better_image
                  else FlowStatus.completed
    let (st3, e3) := update_session st2 session_id (fun s =>
      { s with flow_state := .COMPLETED
               sides_received_front := if new_side = .front then some gcs_path else s.sides_received_front
               sides_received_back := if new_side = .front then s.sides_received_back else some gcs_path
               final_pdf_path := some pdf_path })
    let (st4, e4) := if status = .completed then
        save_extracted_data st3 session_id effective_label doc_type merged_data
      else (st3, [])
    (.ok { sessionId := session_id, status := status, documentType := doc_type,
           detectedSide := new_side, isValid := true, isLegible := true,
           feedback := classification.userFeedback,
           generatedPdfUrl := if status = .completed then some signed_url else none,
           extractedData := some merged_data, alerts := alerts, label := effective_label },
     st4, evs ++ e1 ++ e2 ++ e3 ++ e4)

/-- `_complete_single_page`. -/
def completeSinglePage (env : Env) (session_id : String) (doc_type : DocumentType)
    (side : DocumentSide) (classification : GeminiClassificationResult)
    (enhanced_bytes : Bytes) (is_pdf : Bool) (label : Option String)
    (st : Store) (evs : List Event) : ProcResult :=
  let extracted := classification.extractedData
  let alerts := buildAlerts extracted doc_type
  let status := if shouldRequestRetry alerts then FlowStatus.needs_better_image
                else FlowStatus.completed
  let pdf_bytes := if is_pdf && env.is_valid_pdf enhanced_bytes then enhanced_bytes
                   else env.generate_single_page_pdf enhanced_bytes doc_type
  let img_path := session_path session_id "source.jpg"
  let (st1, e1) := upload_bytes st enhanced_bytes img_path
  let pdf_path := session_path session_id "final.pdf"
  let (st2, e2) := upload_bytes st1 pdf_bytes pdf_path
  let signed_url := env.generate_signed_url pdf_path
  let (st3, e3) := update_session st2 session_id (fun s =>
    { s with flow_state := .COMPLETED
             document_type := doc_type
             single_page_path := some img_path
             final_pdf_path := some pdf_path })
  let (st4, e4) := if status = .completed then
      save_extracted_data st3 session_id label doc_type extracted
    else (st3, [])
  (.ok { sessionId := session_id, status := status, documentType := doc_type,
         detectedSide := side, isValid := true, isLegible := true,
         feedback := classification.userFeedback,
         generatedPdfUrl := if status = .completed then some signed_url else none,
         extractedData := some extracted, alerts := alerts, label := label },
   st4, evs ++ e1 ++ e2 ++ e3 ++ e4)

/-- `_complete_full_document`. -/
def completeFullDocument (env : Env) (session_id : String) (doc_type : DocumentType)
    (classification : GeminiClassificationResult) (file_bytes : Bytes) (is_pdf : Bool)
    (label : Option String) (st : Store) (evs : List Event) : ProcResult :=
  let extracted := classification.extractedData
  let alerts := buildAlerts extracted doc_type
  let status := if shouldRequestRetry alerts then FlowStatus.needs_better_image
                else FlowStatus.completed
  let pdf_bytes := if is_pdf && env.is_valid_pdf file_bytes then file_bytes
                   else env.generate_single_page_pdf file_bytes doc_type
  let pdf_path := session_path session_id "final.pdf"
  let (st1, e1) := upload_bytes st pdf_bytes pdf_path
  let source_path := session_path session_id (if is_pdf then "source.pdf" else "source.jpg")
  let (st2, e2) := upload_bytes st1 file_bytes source_path
  let signed_url := env.generate_signed_url pdf_path
  let (st3, e3) := update_session st2 session_id (fun s =>
    { s with flow_state := .COMPLETED
             document_type := doc_type
             single_page_path := some source_path
             final_pdf_path := some pdf_path })
  let (st4, e4) := if status = .completed then
      save_extracted_data st3 session_id label doc_type extracted
    else (st3, [])
  (.ok { sessionId := session_id, status := status, documentType := doc_type,
         detectedSide := .full_document, isValid := true, isLegible := true,
         feedback := classification.userFeedback,
         generatedPdfUrl := if status = .completed then some signed_url else none,
         extractedData := some extracted, alerts := alerts, label := label },
   st4, evs ++ e1 ++ e2 ++ e3 ++ e4)

/-- `_handle_first_upload`: decision order of the `AWAITING_FIRST_UPLOAD`
handler. -/
def handleFirstUpload (env : Env) (session_id : String)
    (classification : GeminiClassificationResult) (enhanced_bytes : Bytes)
    (is_pdf : Bool) (label : Option String) (st : Store) (evs : List Event) : ProcResult :=
  let doc_type := classification.documentType
  let side := classification.documentSide
  if classification.isValidDocument = false ∨ doc_type = .unknown then
    (.ok { sessionId := session_id, status := .invalid_document, documentType := doc_type,
           detectedSide := side, isValid := false, isLegible := classification.isLegible,
           feedback := classification.userFeedback, label := label }, st, evs)
  else if classification.isLegible = false then
    (.ok { sessionId := session_id, status := .needs_better_image, documentType := doc_type,
           detectedSide := side, isValid := true, isLegible := false,
           feedback := classification.userFeedback, label := label }, st, evs)
  else if doc_type ∈ SINGLE_PAGE_DOCUMENTS then
    completeSinglePage env session_id doc_type side classification enhanced_bytes is_pdf label st evs
  else if classification.containsBothSides = true ∧ side = .full_document then
    completeFullDocument env session_id doc_type classification enhanced_bytes is_pdf label st evs
  else if doc_type ∈ TWO_SIDED_DOCUMENTS then
    saveFirstSide session_id doc_type side classification enhanced_bytes label st evs
  else
    (.ok { sessionId := session_id, status := .error, documentType := doc_type,
           detectedSide := side, feedback := couldNotProcessFeedback, label := label },
     st, evs)

/-- `_handle_second_side`: decision order of the `AWAITING_SECOND_SIDE`
handler.  In the illegible branch the Python code computes a still-needed-side
status from the slots but never uses it (`_still_needed` below is dead, as in
the source). -/
def handleSecondSide (env : Env) (session_id : String) (session : Session)
    (classification : GeminiClassificationResult) (enhanced_bytes : Bytes)
    (is_pdf : Bool) (label : Option String) (st : Store) (evs : List Event) : ProcResult :=
  let expected_type := session.document_type
  let doc_type := classification.documentType
  let side := classification.documentSide
  if classification.isValidDocument = false then
    (.ok { sessionId := session_id, status := .invalid_document, documentType := doc_type,
           detectedSide := side, isValid := false, isLegible := classification.isLegible,
           feedback := classification.userFeedback, label := label }, st, evs)
  else if classification.isLegible = false then
    let _still_needed := if truthy session.sides_received_front then FlowStatus.needs_back_side
                         else FlowStatus.needs_front_side
    (.ok { sessionId := session_id, status := .needs_better_image, documentType := expected_type,
           detectedSide := side, isValid := true, isLegible := false,
           feedback := classification.userFeedback, label := label }, st, evs)
  else if doc_type ≠ expected_type ∧ doc_type ≠ .unknown then
    (.ok { sessionId := session_id,
           status := if truthy session.sides_received_front then .needs_back_side
                     else .needs_front_side,
           documentType := expected_type, detectedSide := side, isValid := true,
           isLegible := true, feedback := wrongTypeFeedback expected_type, label := label },
     st, evs)
  else if side = .front ∧ truthy session.sides_received_front then
    (.ok { sessionId := session_id, status := .needs_back_side, documentType := expected_type,
           detectedSide := side, isValid := true, isLegible := true,
           feedback := frontAgainFeedback, label := label }, st, evs)
  else if side = .back ∧ truthy session.sides_received_back then
    (.ok { sessionId := session_id, status := .needs_front_side, documentType := expected_type,
           detectedSide := side, isValid := true, isLegible := true,
           feedback := backAgainFeedback, label := label }, st, evs)
  else if classification.containsBothSides = true ∧ side = .full_document then
    completeFullDocument env session_id expected_type classification enhanced_bytes is_pdf label st evs
  else
    completeTwoSides env session_id session expected_type side classification enhanced_bytes label st evs

/-- Steps 2–5 of `process_upload` once a session is in hand: the `COMPLETED`
short-circuit, image enhancement, context construction, the single
classification call, and per-state dispatch. -/
def processAfterResolve (env : Env) (st : Store) (evs : List Event) (session_id : String)
    (session : Session) (file_bytes : Bytes) (mime_type : String)
    (label : Option String) : ProcResult :=
  let flow_state := session.flow_state
  if flow_state = .COMPLETED then
    (.ok { sessionId := session_id, status := .completed,
           documentType := session.document_type,
           feedback := alreadyCompletedFeedback }, st, evs)
  else
    let is_pdf := mime_type = "application/pdf"
    let enhanced_bytes := if is_pdf then file_bytes else env.enhance_image file_bytes
    let context := buildContext session
    let classification := env.classify enhanced_bytes mime_type context
    let evs1 := evs ++ [.classifyCall context]
    if flow_state = .AWAITING_FIRST_UPLOAD then
      handleFirstUpload env session_id classification enhanced_bytes is_pdf label st evs1
    else if flow_state = .AWAITING_SECOND_SIDE then
      handleSecondSide env session_id session classification enhanced_bytes is_pdf label st evs1
    else
      (.ok { sessionId := session_id, status := .error,
             feedback := unexpectedStateFeedback }, st, evs1)

/-- `process_upload(file_bytes, mime_type, session_id, label)`. -/
def process_upload (env : Env) (st : Store) (file_bytes : Bytes) (mime_type : String)
    (session_id : Option String) (label : Option String) : ProcResult :=
  match session_id with
  | some sid =>
      match get_session st sid with
      | (none, st1, e0) =>
          (.ok { sessionId := sid, status := .error,
                 feedback := sessionExpiredFeedback }, st1, e0)
      | (some session, st1, e0) =>
          processAfterResolve env st1 e0 sid session file_bytes mime_type label
  | none =>
      let (session, st1, e0) := create_session st
      processAfterResolve env st1 e0 session.session_id session file_bytes mime_type label

/-! ### API handler (`main.py`) -/

def unexpectedErrorFeedback : String :=
  "Ocurrió un error inesperado. Por favor, intenta de nuevo más tarde."

/-- `validate_document(request)` of `main.py`.  `fetch_result` abstracts
`file_fetcher.fetch_file(request.fileUrl)` (an `error` is a rejected or failed
download, whose user-facing message we carry verbatim).  Note that the Python
handler calls `process_upload` WITHOUT forwarding `request.label`, so the
state machine receives its default `label=None` — this is visible below as the
literal `none` argument. -/
def validate_document (env : Env) (st : Store)
    (fetch_result : Except String (Bytes × String))
    (request_sessionId : Option String) (_request_label : Option String) : ProcResult :=
  match fetch_result with
  | .error e =>
      (.ok { sessionId := request_sessionId.getD "", status := .error, feedback := e }, st, [])
  | .ok (file_bytes, mime_type) =>
      match process_upload env st file_bytes mime_type request_sessionId none with
      | (.error _e, st1, evs) =>
          (.ok { sessionId := request_sessionId.getD "", status := .error,
                 feedback := unexpectedErrorFeedback }, st1, evs)
      | ok => ok

/-! ### Concrete instances used by witnesses and counterexamples -/

/-- An environment whose collaborators are inert stand-ins. -/
def envTrivial : Env :=
  { enhance_image := id
    generate_two_sided_pdf := fun _ _ _ => 99
    generate_single_page_pdf := fun _ _ => 98
    is_valid_pdf := fun _ => false
    generate_signed_url := fun p => "https://signed/" ++ p
    classify := fun _ _ _ => {} }

/-- `AWAITING_SECOND_SIDE` session holding only the front slot. -/
def sessFrontOnly : Session :=
  { session_id := "s2", flow_state := .AWAITING_SECOND_SIDE,
    document_type := .cedula_ciudadania,
    sides_received_front := some "sessions/s2/enhanced_front.jpg",
    expires_at := 100 }

/-- `AWAITING_SECOND_SIDE` session holding only the back slot. -/
def sessBackOnly : Session :=
  { session_id := "s2", flow_state := .AWAITING_SECOND_SIDE,
    document_type := .cedula_ciudadania,
    sides_received_back := some "sessions/s2/enhanced_back.jpg",
    expires_at := 100 }

/-- A legible, valid cédula front — sent again on the second turn. -/
def clsSecondFrontAgain : GeminiClassificationResult :=
  { documentType := .cedula_ciudadania, documentSide := .front,
    isValidDocument := true, isLegible := true, containsBothSides := false,
    userFeedback := "Cara frontal recibida." }

/-- A session already driven to completion. -/
def sessCompleted : Session :=
  { session_id := "s5", flow_state := .COMPLETED,
    document_type := .cedula_ciudadania, expires_at := 100 }

/-- Store holding only the completed session. -/
def stCompleted : Store := { sessions := [("s5", sessCompleted)], now := 1 }

/-- A session whose TTL has lapsed (`expires_at` in the past). -/
def sessExpired : Session :=
  { session_id := "s9", flow_state := .AWAITING_FIRST_UPLOAD,
    document_type := .unknown, created_at := 10, updated_at := 10, expires_at := 34 }

/-- A valid but illegible second-turn classification. -/
def clsIllegible : GeminiClassificationResult :=
  { documentType := .cedula_ciudadania, documentSide := .unknown,
    isValidDocument := true, isLegible := false, containsBothSides := false,
    userFeedback := "La imagen está borrosa." }

/-- Valid, legible, type-consistent, but with an undetermined side. -/
def clsSideUnknown : GeminiClassificationResult :=
  { documentType := .cedula_ciudadania, documentSide := .unknown,
    isValidDocument := true, isLegible := true, containsBothSides := false,
    userFeedback := "Documento recibido." }

/-- Front-slot session for the low-confidence completion scenario. -/
def sessFrontLowConf : Session :=
  { session_id := "s2", flow_state := .AWAITING_SECOND_SIDE,
    document_type := .cedula_ciudadania,
    sides_received_front := some "sessions/s2/enhanced_front.jpg",
    expires_at := 100 }

/-- Store holding that session and its stored front blob. -/
def stLowConf : Store :=
  { sessions := [("s2", sessFrontLowConf)],
    blobs := [("sessions/s2/enhanced_front.jpg", 5)], now := 1 }

/-- A matching back side whose extraction has every field at confidence 0.5. -/
def clsBackLowConf : GeminiClassificationResult :=
  { documentType := .cedula_ciudadania, documentSide := .back,
    isValidDocument := true, isLegible := true, containsBothSides := false,
    userFeedback := "Cara trasera recibida.",
    extractedData := fun _ => { value := some "X", confidence := Rat.mk' 1 2 } }

/-- High-confidence front classification for the label scenario. -/
def clsFrontHigh : GeminiClassificationResult :=
  { documentType := .cedula_ciudadania, documentSide := .front,
    isValidDocument := true, isLegible := true, containsBothSides := false,
    userFeedback := "Cara frontal recibida.",
    extractedData := fun _ => { value := some "V", confidence := Rat.mk' 9 10 } }

/-- High-confidence back classification for the label scenario. -/
def clsBackHigh : GeminiClassificationResult :=
  { documentType := .cedula_ciudadania, documentSide := .back,
    isValidDocument := true, isLegible := true, containsBothSides := false,
    userFeedback := "Cara trasera recibida.",
    extractedData := fun _ => { value := some "V", confidence := Rat.mk' 9 10 } }

/-- Environment that classifies byte value 7 as the front and anything else as
the back of a cédula. -/
def envLabelDemo : Env :=
  { enhance_image := id
    generate_two_sided_pdf := fun _ _ _ => 99
    generate_single_page_pdf := fun _ _ => 98
    is_valid_pdf := fun _ => false
    generate_signed_url := fun p => "https://signed/" ++ p
    classify := fun b _ _ => if b = 7 then clsFrontHigh else clsBackHigh }

/-- Fresh store for the label scenario; `create_session` will mint id `s1`. -/
def stLabelDemo : Store := { now := 1, freshId := "s1" }

/-- Turn 1 through the API handler: front upload, request label supplied. -/
def labelDemoRun1 : ProcResult :=
  validate_document envLabelDemo stLabelDemo (.ok (7, "image/jpeg")) none
    (some "cedula_reclamante")

/-- Turn 2 through the API handler: back upload, label omitted. -/
def labelDemoRun2 : ProcResult :=
  validate_document envLabelDemo (storeOf labelDemoRun1) (.ok (8, "image/jpeg"))
    (some "s1") none

/-- Turn 1 calling the state machine directly with the label. -/
def labelDemoDirect1 : ProcResult :=
  process_upload envLabelDemo stLabelDemo 7 "image/jpeg" none (some "cedula_reclamante")

/-- Turn 2 calling the state machine directly, label omitted. -/
def labelDemoDirect2 : ProcResult :=
  process_upload envLabelDemo (storeOf labelDemoDirect1) 8 "image/jpeg" (some "s1") none

/-! ### Helper lemmas about the keyed stores -/

theorem lookupA_removeA_self {α : Type} (l : List (String × α)) (k : String) :
    lookupA (removeA l k) k = none := by
  induction l with
  | nil => rfl
  | cons hd tl ih =>
      obtain ⟨k0, w⟩ := hd
      by_cases h : k0 = k
      · simpa [removeA, h] using ih
      · simp [removeA, lookupA, h, ih]

theorem lookupA_removeA_sub {α : Type} (l : List (String × α)) (k i : String) (v : α)
    (h : lookupA (removeA l k) i = some v) : lookupA l i = some v := by
  induction l with
  | nil => simp [removeA, lookupA] at h
  | cons hd tl ih =>
      obtain ⟨k0, w⟩ := hd
      by_cases hk : k0 = k
      · rw [removeA, if_pos hk] at h
        by_cases hi : k0 = i
        · subst hk; subst hi
          rw [lookupA_removeA_self] at h
          exact absurd h (by simp)
        · rw [lookupA, if_neg hi]
          exact ih h
      · rw [removeA, if_neg hk] at h
        by_cases hi : k0 = i
        · rw [lookupA, if_pos hi] at h ⊢
          exact h
        · rw [lookupA, if_neg hi] at h ⊢
          exact ih h

theorem lookupA_setA_self {α : Type} (l : List (String × α)) (k : String) (v : α) :
    lookupA (setA l k v) k = some v := by
  induction l with
  | nil => simp [setA, lookupA]
  | cons hd tl ih =>
      obtain ⟨k0, w⟩ := hd
      by_cases h : k0 = k
      · simp [setA, lookupA, h]
      · simp [setA, lookupA, h, ih]

theorem lookupA_setA_ne {α : Type} (l : List (String × α)) (k i : String) (v : α)
    (h : i ≠ k) : lookupA (setA l k v) i = lookupA l i := by
  have hk : k ≠ i := Ne.symm h
  induction l with
  | nil => simp [setA, lookupA, hk]
  | cons hd tl ih =>
      obtain ⟨k0, w⟩ := hd
      by_cases h0 : k0 = k
      · subst h0
        simp [setA, lookupA, hk]
      · simp [setA, lookupA, h0, ih]

theorem lookupA_mapA_self {α : Type} (l : List (String × α)) (k : String) (f : α → α) :
    lookupA (mapA l k f) k = (lookupA l k).map f := by
  induction l with
  | nil => rfl
  | cons hd tl ih =>
      obtain ⟨k0, w⟩ := hd
      by_cases h : k0 = k <;> simp [mapA, lookupA, h, ih]

theorem lookupA_mapA_ne {α : Type} (l : List (String × α)) (k i : String) (f : α → α)
    (h : i ≠ k) : lookupA (mapA l k f) i = lookupA l i := by
  have hk : k ≠ i := Ne.symm h
  induction l with
  | nil => rfl
  | cons hd tl ih =>
      obtain ⟨k0, w⟩ := hd
      by_cases h0 : k0 = k
      · subst h0
        simp [mapA, lookupA, hk]
      · simp [mapA, lookupA, h0, ih]

/-- The lookup-with-side-effect `get_session` either leaves the store alone or
deletes exactly the requested session. -/
theorem get_session_effects (st : Store) (sid : String) :
    ((get_session st sid).2.2 = [] ∧ (get_session st sid).2.1 = st) ∨
    ((get_session st sid).2.2 = [.sessionDeleted sid] ∧
     (get_session st sid).2.1 = { st with sessions := removeA st.sessions sid }) := by
  unfold get_session
  rcases lookupA st.sessions sid with _ | s
  · exact Or.inl ⟨rfl, rfl⟩
  · by_cases h : s.expires_at < st.now
    · exact Or.inr (by simp [h])
    · exact Or.inl (by simp [h])

/-! ### Helper lemmas about the alert builder -/

theorem foldl_if_append {β : Type} (p : β → Prop) [DecidablePred p] (m : β → String)
    (l : List β) : ∀ acc : List String,
    l.foldl (fun a x => if p x then a ++ [m x] else a) acc =
      acc ++ (l.filter (fun x => decide (p x))).map m := by
  induction l with
  | nil => intro acc; simp
  | cons hd tl ih =>
      intro acc
      by_cases h : p hd <;> simp [h, ih]

/-- `_build_alerts` emits one alert exactly for the critical fields whose value
is non-null and whose confidence is below the 0.85 threshold, in list order. -/
theorem buildAlerts_eq (e : ExtractedData) (dt : DocumentType) :
    buildAlerts e dt =
      ((CRITICAL_FIELDS dt).filter
          (fun fn => decide ((e fn).value ≠ none ∧ (e fn).confidence < lowConfidenceThreshold))).map
        (fun fn => alertMessage (FIELD_LABELS fn) (pctOf (e fn).confidence)) := by
  unfold buildAlerts
  exact (foldl_if_append
    (fun fn => (e fn).value ≠ none ∧ (e fn).confidence < lowConfidenceThreshold)
    (fun fn => alertMessage (FIELD_LABELS fn) (pctOf (e fn).confidence))
    (CRITICAL_FIELDS dt) []).trans (by simp)

/-! ### Helper lemmas about the merge -/

theorem mergeField_first_only (f s : ExtractedField)
    (hf : f.value ≠ none) (hs : s.value = none) : mergeField f s = f := by
  simp [mergeField, hf, hs]

theorem mergeField_second_only (f s : ExtractedField)
    (hf : f.value = none) (hs : s.value ≠ none) : mergeField f s = s := by
  simp [mergeField, hf, hs]

theorem mergeField_both_null (f s : ExtractedField)
    (hf : f.value = none) (hs : s.value = none) : mergeField f s = f := by
  simp [mergeField, hf, hs]

theorem mergeField_both (f s : ExtractedField)
    (hf : f.value ≠ none) (hs : s.value ≠ none) :
    mergeField f s = if f.confidence ≤ s.confidence then s else f := by
  simp [mergeField, hf, hs]

/-! ### Helper lemmas: the low-confidence gate on each completion path -/

theorem gate_two_sides (env : Env) (sid : String) (session : Session) (dt : DocumentType)
    (side : DocumentSide) (cls : GeminiClassificationResult) (b : Bytes) (lab : Option String)
    (st : Store) (evs : List Event) (s0 : Session)
    (hsess : lookupA st.sessions sid = some s0)
    (hok : (completeTwoSides env sid session dt side cls b lab st evs).1.isOk = true) :
    ∃ resp : ValidateResponse,
      (completeTwoSides env sid session dt side cls b lab st evs).1 = .ok resp ∧
      resp.alerts = buildAlerts (mergeExtractedData
          (session.extracted_data_first_side.getD ExtractedData.default) cls.extractedData) dt ∧
      Event.blobUpload (session_path sid
          (if side = .front then "enhanced_front.jpg" else "enhanced_back.jpg"))
        ∈ evsOf (completeTwoSides env sid session dt side cls b lab st evs) ∧
      (lookupA (storeOf (completeTwoSides env sid session dt side cls b lab st evs)).sessions
          sid).map (fun s1 => s1.flow_state) = some FlowState.COMPLETED ∧
      (2 ≤ resp.alerts.length →
        resp.status = .needs_better_image ∧ resp.generatedPdfUrl = none ∧
        (storeOf (completeTwoSides env sid session dt side cls b lab st evs)).extracted
          = st.extracted) ∧
      (resp.alerts.length ≤ 1 →
        resp.status = .completed ∧
        resp.generatedPdfUrl = some (env.generate_signed_url (session_path sid "final.pdf")) ∧
        (lookupA (storeOf (completeTwoSides env sid session dt side cls b lab st evs)).extracted
            sid).map (fun rec => (rec.label, rec.document_type, rec.extracted_data)) =
          some (pyOr lab session.label, dt, mergeExtractedData
            (session.extracted_data_first_side.getD ExtractedData.default) cls.extractedData)) := by
  by_cases hside : side = DocumentSide.front
  · subst hside
    rcases hdl : download_bytes
        { st with blobs := setA st.blobs (session_path sid "enhanced_front.jpg") b }
        session.sides_received_back with e | ob
    · exfalso
      simp [completeTwoSides, upload_bytes, hdl, Except.isOk, Except.toBool] at hok
    · by_cases hretry : shouldRequestRetry (buildAlerts (mergeExtractedData
              (session.extracted_data_first_side.getD ExtractedData.default) cls.extractedData) dt) = true
      · have hlen : 2 ≤ (buildAlerts (mergeExtractedData
              (session.extracted_data_first_side.getD ExtractedData.default) cls.extractedData) dt).length := by
          simpa [shouldRequestRetry] using hretry
        have hrun : (completeTwoSides env sid session dt DocumentSide.front cls b lab st evs).1 =
            .ok { sessionId := sid, status := .needs_better_image, documentType := dt,
                   detectedSide := DocumentSide.front, isValid := true, isLegible := true,
                   feedback := cls.userFeedback, generatedPdfUrl := none,
                   extractedData := some (mergeExtractedData
              (session.extracted_data_first_side.getD ExtractedData.default) cls.extractedData),
                   alerts := buildAlerts (mergeExtractedData
              (session.extracted_data_first_side.getD ExtractedData.default) cls.extractedData) dt,
                   label := pyOr lab session.label } := by
          simp [completeTwoSides, upload_bytes, hdl, hretry]
        refine ⟨_, hrun, rfl, ?_, ?_, fun _ => ⟨rfl, rfl, ?_⟩,
          fun hle => absurd hlen (Nat.not_le.mpr (Nat.lt_succ_of_le hle))⟩
        · simp [completeTwoSides, upload_bytes, hdl, hretry, evsOf]
        · simp [completeTwoSides, upload_bytes, hdl, hretry, storeOf, update_session,
            lookupA_mapA_self, hsess]
        · simp [completeTwoSides, upload_bytes, hdl, hretry, storeOf, update_session]
      · have hlen : ¬ 2 ≤ (buildAlerts (mergeExtractedData
              (session.extracted_data_first_side.getD ExtractedData.default) cls.extractedData) dt).length := by
          simpa [shouldRequestRetry] using hretry
        have hrun : (completeTwoSides env sid session dt DocumentSide.front cls b lab st evs).1 =
            .ok { sessionId := sid, status := .completed, documentType := dt,
                   detectedSide := DocumentSide.front, isValid := true, isLegible := true,
                   feedback := cls.userFeedback,
                   generatedPdfUrl := some (env.generate_signed_url (session_path sid "final.pdf")),
                   extractedData := some (mergeExtractedData
              (session.extracted_data_first_side.getD ExtractedData.default) cls.extractedData),
                   alerts := buildAlerts (mergeExtractedData
              (session.extracted_data_first_side.getD ExtractedData.default) cls.extractedData) dt,
                   label := pyOr lab session.label } := by
          simp [completeTwoSides, upload_bytes, hdl, hretry]
        refine ⟨_, hrun, rfl, ?_, ?_, fun hge => absurd hge hlen, fun _ => ⟨rfl, rfl, ?_⟩⟩
        · simp [completeTwoSides, upload_bytes, hdl, hretry, evsOf]
        · simp [completeTwoSides, upload_bytes, hdl, hretry, storeOf, update_session,
            save_extracted_data, lookupA_mapA_self, hsess]
        · simp [completeTwoSides, upload_bytes, hdl, hretry, storeOf, update_session,
            save_extracted_data, lookupA_setA_self]
  ·
    rcases hdl : download_bytes
        { st with blobs := setA st.blobs (session_path sid "enhanced_back.jpg") b }
        session.sides_received_front with e | ob
    · exfalso
      simp [completeTwoSides, upload_bytes, hside, hdl, Except.isOk, Except.toBool] at hok
    · by_cases hretry : shouldRequestRetry (buildAlerts (mergeExtractedData
              (session.extracted_data_first_side.getD ExtractedData.default) cls.extractedData) dt) = true
      · have hlen : 2 ≤ (buildAlerts (mergeExtractedData
              (session.extracted_data_first_side.getD ExtractedData.default) cls.extractedData) dt).length := by
          simpa [shouldRequestRetry] using hretry
        have hrun : (completeTwoSides env sid session dt side cls b lab st evs).1 =
            .ok { sessionId := sid, status := .needs_better_image, documentType := dt,
                   detectedSide := side, isValid := true, isLegible := true,
                   feedback := cls.userFeedback, generatedPdfUrl := none,
                   extractedData := some (mergeExtractedData
              (session.extracted_data_first_side.getD ExtractedData.default) cls.extractedData),
                   alerts := buildAlerts (mergeExtractedData
              (session.extracted_data_first_side.getD ExtractedData.default) cls.extractedData) dt,
                   label := pyOr lab session.label } := by
          simp [completeTwoSides, upload_bytes, hside, hdl, hretry]
        refine ⟨_, hrun, rfl, ?_, ?_, fun _ => ⟨rfl, rfl, ?_⟩,
          fun hle => absurd hlen (Nat.not_le.mpr (Nat.lt_succ_of_le hle))⟩
        · simp [completeTwoSides, upload_bytes, hside, hdl, hretry, evsOf]
        · simp [completeTwoSides, upload_bytes, hside, hdl, hretry, storeOf, update_session,
            lookupA_mapA_self, hsess]
        · simp [completeTwoSides, upload_bytes, hside, hdl, hretry, storeOf, update_session]
      · have hlen : ¬ 2 ≤ (buildAlerts (mergeExtractedData
              (session.extracted_data_first_side.getD ExtractedData.default) cls.extractedData) dt).length := by
          simpa [shouldRequestRetry] using hretry
        have hrun : (completeTwoSides env sid session dt side cls b lab st evs).1 =
            .ok { sessionId := sid, status := .completed, documentType := dt,
                   detectedSide := side, isValid := true, isLegible := true,
                   feedback := cls.userFeedback,
                   generatedPdfUrl := some (env.generate_signed_url (session_path sid "final.pdf")),
                   extractedData := some (mergeExtractedData
              (session.extracted_data_first_side.getD ExtractedData.default) cls.extractedData),
                   alerts := buildAlerts (mergeExtractedData
              (session.extracted_data_first_side.getD ExtractedData.default) cls.extractedData) dt,
                   label := pyOr lab session.label } := by
          simp [completeTwoSides, upload_bytes, hside, hdl, hretry]
        refine ⟨_, hrun, rfl, ?_, ?_, fun hge => absurd hge hlen, fun _ => ⟨rfl, rfl, ?_⟩⟩
        · simp [completeTwoSides, upload_bytes, hside, hdl, hretry, evsOf]
        · simp [completeTwoSides, upload_bytes, hside, hdl, hretry, storeOf, update_session,
            save_extracted_data, lookupA_mapA_self, hsess]
        · simp [completeTwoSides, upload_bytes, hside, hdl, hretry, storeOf, update_session,
            save_extracted_data, lookupA_setA_self]

theorem gate_single_page (env : Env) (sid : String) (dt : DocumentType)
    (side : DocumentSide) (cls : GeminiClassificationResult) (b : Bytes) (is_pdf : Bool)
    (lab : Option String) (st : Store) (evs : List Event) (s0 : Session)
    (hsess : lookupA st.sessions sid = some s0) :
    ∃ resp : ValidateResponse,
      (completeSinglePage env sid dt side cls b is_pdf lab st evs).1 = .ok resp ∧
      resp.alerts = buildAlerts cls.extractedData dt ∧
      Event.blobUpload (session_path sid "source.jpg")
        ∈ evsOf (completeSinglePage env sid dt side cls b is_pdf lab st evs) ∧
      (lookupA (storeOf (completeSinglePage env sid dt side cls b is_pdf lab st evs)).sessions
          sid).map (fun s1 => s1.flow_state) = some FlowState.COMPLETED ∧
      (2 ≤ resp.alerts.length →
        resp.status = .needs_better_image ∧ resp.generatedPdfUrl = none ∧
        (storeOf (completeSinglePage env sid dt side cls b is_pdf lab st evs)).extracted
          = st.extracted) ∧
      (resp.alerts.length ≤ 1 →
        resp.status = .completed ∧
        resp.generatedPdfUrl = some (env.generate_signed_url (session_path sid "final.pdf")) ∧
        (lookupA (storeOf (completeSinglePage env sid dt side cls b is_pdf lab st evs)).extracted
            sid).map (fun rec => (rec.label, rec.document_type, rec.extracted_data)) =
          some (lab, dt, cls.extractedData)) := by
  by_cases hretry : shouldRequestRetry (buildAlerts cls.extractedData dt) = true
  · have hlen : 2 ≤ (buildAlerts cls.extractedData dt).length := by
      simpa [shouldRequestRetry] using hretry
    have hrun : (completeSinglePage env sid dt side cls b is_pdf lab st evs).1 =
        .ok { sessionId := sid, status := .needs_better_image, documentType := dt,
              detectedSide := side, isValid := true, isLegible := true,
              feedback := cls.userFeedback, generatedPdfUrl := none,
              extractedData := some cls.extractedData,
              alerts := buildAlerts cls.extractedData dt, label := lab } := by
      simp [completeSinglePage, upload_bytes, hretry]
    refine ⟨_, hrun, rfl, ?_, ?_, fun _ => ⟨rfl, rfl, ?_⟩,
      fun hle => absurd hlen (Nat.not_le.mpr (Nat.lt_succ_of_le hle))⟩
    · simp [completeSinglePage, upload_bytes, hretry, evsOf]
    · simp [completeSinglePage, upload_bytes, hretry, storeOf, update_session,
        lookupA_mapA_self, hsess]
    · simp [completeSinglePage, upload_bytes, hretry, storeOf, update_session]
  · have hlen : ¬ 2 ≤ (buildAlerts cls.extractedData dt).length := by
      simpa [shouldRequestRetry] using hretry
    have hrun : (completeSinglePage env sid dt side cls b is_pdf lab st evs).1 =
        .ok { sessionId := sid, status := .completed, documentType := dt,
              detectedSide := side, isValid := true, isLegible := true,
              feedback := cls.userFeedback,
              generatedPdfUrl := some (env.generate_signed_url (session_path sid "final.pdf")),
              extractedData := some cls.extractedData,
              alerts := buildAlerts cls.extractedData dt, label := lab } := by
      simp [completeSinglePage, upload_bytes, hretry]
    refine ⟨_, hrun, rfl, ?_, ?_, fun hge => absurd hge hlen, fun _ => ⟨rfl, rfl, ?_⟩⟩
    · simp [completeSinglePage, upload_bytes, hretry, evsOf]
    · simp [completeSinglePage, upload_bytes, hretry, storeOf, update_session,
        save_extracted_data, lookupA_mapA_self, hsess]
    · simp [completeSinglePage, upload_bytes, hretry, storeOf, update_session,
        save_extracted_data, lookupA_setA_self]

theorem gate_full_document (env : Env) (sid : String) (dt : DocumentType)
    (cls : GeminiClassificationResult) (b : Bytes) (is_pdf : Bool)
    (lab : Option String) (st : Store) (evs : List Event) (s0 : Session)
    (hsess : lookupA st.sessions sid = some s0) :
    ∃ resp : ValidateResponse,
      (completeFullDocument env sid dt cls b is_pdf lab st evs).1 = .ok resp ∧
      resp.alerts = buildAlerts cls.extractedData dt ∧
      Event.blobUpload (session_path sid (if is_pdf then "source.pdf" else "source.jpg"))
        ∈ evsOf (completeFullDocument env sid dt cls b is_pdf lab st evs) ∧
      (lookupA (storeOf (completeFullDocument env sid dt cls b is_pdf lab st evs)).sessions
          sid).map (fun s1 => s1.flow_state) = some FlowState.COMPLETED ∧
      (2 ≤ resp.alerts.length →
        resp.status = .needs_better_image ∧ resp.generatedPdfUrl = none ∧
        (storeOf (completeFullDocument env sid dt cls b is_pdf lab st evs)).extracted
          = st.extracted) ∧
      (resp.alerts.length ≤ 1 →
        resp.status = .completed ∧
        resp.generatedPdfUrl = some (env.generate_signed_url (session_path sid "final.pdf")) ∧
        (lookupA (storeOf (completeFullDocument env sid dt cls b is_pdf lab st evs)).extracted
            sid).map (fun rec => (rec.label, rec.document_type, rec.extracted_data)) =
          some (lab, dt, cls.extractedData)) := by
  by_cases hretry : shouldRequestRetry (buildAlerts cls.extractedData dt) = true
  · have hlen : 2 ≤ (buildAlerts cls.extractedData dt).length := by
      simpa [shouldRequestRetry] using hretry
    have hrun : (completeFullDocument env sid dt cls b is_pdf lab st evs).1 =
        .ok { sessionId := sid, status := .needs_better_image, documentType := dt,
              detectedSide := .full_document, isValid := true, isLegible := true,
              feedback := cls.userFeedback, generatedPdfUrl := none,
              extractedData := some cls.extractedData,
              alerts := buildAlerts cls.extractedData dt, label := lab } := by
      simp [completeFullDocument, upload_bytes, hretry]
    refine ⟨_, hrun, rfl, ?_, ?_, fun _ => ⟨rfl, rfl, ?_⟩,
      fun hle => absurd hlen (Nat.not_le.mpr (Nat.lt_succ_of_le hle))⟩
    · simp [completeFullDocument, upload_bytes, hretry, evsOf]
    · simp [completeFullDocument, upload_bytes, hretry, storeOf, update_session,
        lookupA_mapA_self, hsess]
    · simp [completeFullDocument, upload_bytes, hretry, storeOf, update_session]
  · have hlen : ¬ 2 ≤ (buildAlerts cls.extractedData dt).length := by
      simpa [shouldRequestRetry] using hretry
    have hrun : (completeFullDocument env sid dt cls b is_pdf lab st evs).1 =
        .ok { sessionId := sid, status := .completed, documentType := dt,
              detectedSide := .full_document, isValid := true, isLegible := true,
              feedback := cls.userFeedback,
              generatedPdfUrl := some (env.generate_signed_url (session_path sid "final.pdf")),
              extractedData := some cls.extractedData,
              alerts := buildAlerts cls.extractedData dt, label := lab } := by
      simp [completeFullDocument, upload_bytes, hretry]
    refine ⟨_, hrun, rfl, ?_, ?_, fun hge => absurd hge hlen, fun _ => ⟨rfl, rfl, ?_⟩⟩
    · simp [completeFullDocument, upload_bytes, hretry, evsOf]
    · simp [completeFullDocument, upload_bytes, hretry, storeOf, update_session,
        save_extracted_data, lookupA_mapA_self, hsess]
    · simp [completeFullDocument, upload_bytes, hretry, storeOf, update_session,
        save_extracted_data, lookupA_setA_self]

/-! ### Frame lemmas: each handler touches only its own session record -/

theorem saveFirstSide_frame (sid : String) (dt : DocumentType) (side : DocumentSide)
    (cls : GeminiClassificationResult) (b : Bytes) (lab : Option String)
    (st : Store) (evs : List Event) (i : String) (hi : i ≠ sid) :
    lookupA (storeOf (saveFirstSide sid dt side cls b lab st evs)).sessions i =
      lookupA st.sessions i := by
  simp [saveFirstSide, upload_bytes, update_session, storeOf, lookupA_mapA_ne _ _ _ _ hi]

theorem completeTwoSides_frame (env : Env) (sid : String) (session : Session)
    (dt : DocumentType) (side : DocumentSide) (cls : GeminiClassificationResult) (b : Bytes)
    (lab : Option String) (st : Store) (evs : List Event) (i : String) (hi : i ≠ sid) :
    lookupA (storeOf (completeTwoSides env sid session dt side cls b lab st evs)).sessions i =
      lookupA st.sessions i := by
  by_cases hside : side = DocumentSide.front
  · subst hside
    rcases hdl : download_bytes
        { st with blobs := setA st.blobs (session_path sid "enhanced_front.jpg") b }
        session.sides_received_back with e | ob
    · simp [completeTwoSides, upload_bytes, hdl, storeOf]
    · by_cases hretry : shouldRequestRetry (buildAlerts (mergeExtractedData
          (session.extracted_data_first_side.getD ExtractedData.default)
          cls.extractedData) dt) = true <;>
        simp [completeTwoSides, upload_bytes, hdl, hretry, update_session,
          save_extracted_data, storeOf, lookupA_mapA_ne _ _ _ _ hi]
  · rcases hdl : download_bytes
        { st with blobs := setA st.blobs (session_path sid "enhanced_back.jpg") b }
        session.sides_received_front with e | ob
    · simp [completeTwoSides, upload_bytes, hside, hdl, storeOf]
    · by_cases hretry : shouldRequestRetry (buildAlerts (mergeExtractedData
          (session.extracted_data_first_side.getD ExtractedData.default)
          cls.extractedData) dt) = true <;>
        simp [completeTwoSides, upload_bytes, hside, hdl, hretry, update_session,
          save_extracted_data, storeOf, lookupA_mapA_ne _ _ _ _ hi]

theorem completeSinglePage_frame (env : Env) (sid : String) (dt : DocumentType)
    (side : DocumentSide) (cls : GeminiClassificationResult) (b : Bytes) (is_pdf : Bool)
    (lab : Option String) (st : Store) (evs : List Event) (i : String) (hi : i ≠ sid) :
    lookupA (storeOf (completeSinglePage env sid dt side cls b is_pdf lab st evs)).sessions i =
      lookupA st.sessions i := by
  by_cases hretry : shouldRequestRetry (buildAlerts cls.extractedData dt) = true <;>
    simp [completeSinglePage, upload_bytes, hretry, update_session, save_extracted_data,
      storeOf, lookupA_mapA_ne _ _ _ _ hi]

theorem completeFullDocument_frame (env : Env) (sid : String) (dt : DocumentType)
    (cls : GeminiClassificationResult) (b : Bytes) (is_pdf : Bool)
    (lab : Option String) (st : Store) (evs : List Event) (i : String) (hi : i ≠ sid) :
    lookupA (storeOf (completeFullDocument env sid dt cls b is_pdf lab st evs)).sessions i =
      lookupA st.sessions i := by
  by_cases hretry : shouldRequestRetry (buildAlerts cls.extractedData dt) = true <;>
    simp [completeFullDocument, upload_bytes, hretry, update_session, save_extracted_data,
      storeOf, lookupA_mapA_ne _ _ _ _ hi]

theorem handleFirstUpload_frame (env : Env) (sid : String)
    (cls : GeminiClassificationResult) (b : Bytes) (is_pdf : Bool) (lab : Option String)
    (st : Store) (evs : List Event) (i : String) (hi : i ≠ sid) :
    lookupA (storeOf (handleFirstUpload env sid cls b is_pdf lab st evs)).sessions i =
      lookupA st.sessions i := by
  simp only [handleFirstUpload]
  split_ifs <;>
    first
      | rfl
      | exact completeSinglePage_frame env sid _ _ cls b is_pdf lab st _ i hi
      | exact completeFullDocument_frame env sid _ cls b is_pdf lab st _ i hi
      | exact saveFirstSide_frame sid _ _ cls b lab st _ i hi

theorem handleSecondSide_frame (env : Env) (sid : String) (session : Session)
    (cls : GeminiClassificationResult) (b : Bytes) (is_pdf : Bool) (lab : Option String)
    (st : Store) (evs : List Event) (i : String) (hi : i ≠ sid) :
    lookupA (storeOf (handleSecondSide env sid session cls b is_pdf lab st evs)).sessions i =
      lookupA st.sessions i := by
  simp only [handleSecondSide]
  split_ifs <;>
    first
      | rfl
      | exact completeFullDocument_frame env sid _ cls b is_pdf lab st _ i hi
      | exact completeTwoSides_frame env sid session _ _ cls b lab st _ i hi

theorem processAfterResolve_frame (env : Env) (st : Store) (evs : List Event)
    (sid : String) (session : Session) (fb : Bytes) (mime : String) (lab : Option String)
    (i : String) (hi : i ≠ sid) :
    lookupA (storeOf (processAfterResolve env st evs sid session fb mime lab)).sessions i =
      lookupA st.sessions i := by
  simp only [processAfterResolve]
  split_ifs <;>
    first
      | rfl
      | exact handleFirstUpload_frame env sid _ _ _ lab st _ i hi
      | exact handleSecondSide_frame env sid session _ _ _ lab st _ i hi

/-- A session resolved in `COMPLETED` or `ERROR` state leaves the store
entirely unchanged (`COMPLETED` short-circuits; `ERROR` falls to the
unexpected-state branch, which performs no write). -/
theorem processAfterResolve_terminal (env : Env) (st : Store) (evs : List Event)
    (sid : String) (session : Session) (fb : Bytes) (mime : String) (lab : Option String)
    (hterm : session.flow_state = .COMPLETED ∨ session.flow_state = .ERROR) :
    storeOf (processAfterResolve env st evs sid session fb mime lab) = st := by
  rcases hterm with h | h <;> simp [processAfterResolve, h, storeOf]

/-! ### Theorems for the claims -/

/-- **C3.** Field merge on two-sided completion is the per-field function: for
every field of `ExtractedData`, if exactly one of first-side/second-side has a
non-null value the merged field is that one; if both are null the merged field
is null; if both are non-null the merged field is the one with strictly higher
confidence, and the second-side field when confidences are equal; and merging
`(A has value, B null)` equals merging `(B null, A has value)`, both keeping
A's field. -/
theorem C3_merge_per_field (first second : ExtractedData) (fn : FieldName) :
    ((first fn).value ≠ none → (second fn).value = none →
        mergeExtractedData first second fn = first fn) ∧
    ((first fn).value = none → (second fn).value ≠ none →
        mergeExtractedData first second fn = second fn) ∧
    ((first fn).value = none → (second fn).value = none →
        (mergeExtractedData first second fn).value = none) ∧
    ((first fn).value ≠ none → (second fn).value ≠ none →
        ((second fn).confidence < (first fn).confidence →
            mergeExtractedData first second fn = first fn) ∧
        ((first fn).confidence < (second fn).confidence →
            mergeExtractedData first second fn = second fn) ∧
        ((first fn).confidence = (second fn).confidence →
            mergeExtractedData first second fn = second fn)) ∧
    ((first fn).value ≠ none → (second fn).value = none →
        mergeExtractedData first second fn = mergeExtractedData second first fn ∧
        mergeExtractedData first second fn = first fn) := by
  unfold mergeExtractedData
  refine ⟨fun hf hs => mergeField_first_only _ _ hf hs,
          fun hf hs => mergeField_second_only _ _ hf hs,
          fun hf hs => by rw [mergeField_both_null _ _ hf hs]; exact hf,
          fun hf hs => ?_,
          fun hf hs => ⟨?_, mergeField_first_only _ _ hf hs⟩⟩
  · rw [mergeField_both _ _ hf hs]
    refine ⟨fun h => ?_, fun h => ?_, fun h => ?_⟩
    · rw [if_neg (not_le.mpr h)]
    · rw [if_pos h.le]
    · rw [if_pos h.le]
  · rw [mergeField_first_only _ _ hf hs, mergeField_second_only _ _ hs hf]

theorem C3_merge_per_field_witness :
    (({ value := some "JUAN", confidence := Rat.mk' 9 10 } : ExtractedField).value ≠ none) ∧
    (({ value := none, confidence := 0 } : ExtractedField).value = none) ∧
    mergeExtractedData (fun _ => { value := some "JUAN", confidence := Rat.mk' 9 10 })
        (fun _ => { value := none, confidence := 0 }) .nombres =
      ({ value := some "JUAN", confidence := Rat.mk' 9 10 } : ExtractedField) := by
  refine ⟨by decide, by decide, ?_⟩
  exact (C3_merge_per_field (fun _ => { value := some "JUAN", confidence := Rat.mk' 9 10 })
      (fun _ => { value := none, confidence := 0 }) .nombres).1 (by decide) (by decide)

/-- **C9.** Merge idempotence: merging an `ExtractedData` value `A` with
itself yields a result equal to `A` on every field. -/
theorem C9_merge_idempotent (a : ExtractedData) (fn : FieldName) :
    mergeExtractedData a a fn = a fn := by
  unfold mergeExtractedData
  rcases h : (a fn).value with _ | v
  · exact mergeField_both_null _ _ h h
  · rw [mergeField_both _ _ (by simp [h]) (by simp [h]), if_pos le_rfl]

/-- **C6.** The classification client never raises to its caller: it attempts
the model call, on failure retries exactly once, makes at most two model
calls, and after two failed attempts returns the fixed fallback result
(`UNKNOWN` type and side, invalid, illegible, no both-sides flag, the
apologetic feedback, and every extracted field null with confidence 0). -/
theorem C6_classify_fallback (attempt : Nat → Option GeminiClassificationResult) :
    (classify_document attempt).2 ≤ 2 ∧
    (∀ r0, attempt 0 = some r0 → classify_document attempt = (r0, 1)) ∧
    (∀ r1, attempt 0 = none → attempt 1 = some r1 → classify_document attempt = (r1, 2)) ∧
    (attempt 0 = none → attempt 1 = none →
      classify_document attempt = (geminiFallbackResult, 2) ∧
      (classify_document attempt).1.documentType = .unknown ∧
      (classify_document attempt).1.documentSide = .unknown ∧
      (classify_document attempt).1.isValidDocument = false ∧
      (classify_document attempt).1.isLegible = false ∧
      (classify_document attempt).1.containsBothSides = false ∧
      (classify_document attempt).1.userFeedback =
        "No pudimos analizar el documento en este momento. Por favor, intenta de nuevo." ∧
      (∀ fn, ((classify_document attempt).1.extractedData fn).value = none ∧
             ((classify_document attempt).1.extractedData fn).confidence = 0)) := by
  refine ⟨?_, fun r0 h0 => by simp [classify_document, h0],
          fun r1 h0 h1 => by simp [classify_document, h0, h1],
          fun h0 h1 => ?_⟩
  · unfold classify_document
    rcases attempt 0 with _ | r
    · rcases attempt 1 with _ | r <;> simp
    · simp
  · simp [classify_document, h0, h1, geminiFallbackResult, ExtractedData.default]

theorem C6_classify_fallback_witness :
    ((fun _ => none : Nat → Option GeminiClassificationResult) 0 = none) ∧
    classify_document (fun _ => none) = (geminiFallbackResult, 2) := by
  refine ⟨rfl, ?_⟩
  exact ((C6_classify_fallback (fun _ => none)).2.2.2 rfl rfl).1

/-- **C4.** Second-side rejections leave the session untouched: with a valid
and legible classification, a non-`UNKNOWN` type mismatch, or a detected side
duplicating an already-filled slot, returns the status for whichever side is
still missing with the corresponding feedback, and neither the store nor the
event trace changes. -/
theorem C4_second_side_rejections (env : Env) (sid : String) (session : Session)
    (cls : GeminiClassificationResult) (b : Bytes) (is_pdf : Bool)
    (lab : Option String) (st : Store) (evs : List Event) :
    (cls.isValidDocument = true → cls.isLegible = true →
     cls.documentType ≠ session.document_type → cls.documentType ≠ .unknown →
     handleSecondSide env sid session cls b is_pdf lab st evs =
       (.ok { sessionId := sid,
              status := if truthy session.sides_received_front then .needs_back_side
                        else .needs_front_side,
              documentType := session.document_type, detectedSide := cls.documentSide,
              isValid := true, isLegible := true,
              feedback := wrongTypeFeedback session.document_type, label := lab },
        st, evs)) ∧
    (cls.isValidDocument = true → cls.isLegible = true →
     (cls.documentType = session.document_type ∨ cls.documentType = .unknown) →
     cls.documentSide = .front → truthy session.sides_received_front = true →
     handleSecondSide env sid session cls b is_pdf lab st evs =
       (.ok { sessionId := sid, status := .needs_back_side,
              documentType := session.document_type, detectedSide := cls.documentSide,
              isValid := true, isLegible := true,
              feedback := frontAgainFeedback, label := lab },
        st, evs)) ∧
    (cls.isValidDocument = true → cls.isLegible = true →
     (cls.documentType = session.document_type ∨ cls.documentType = .unknown) →
     cls.documentSide = .back → truthy session.sides_received_back = true →
     handleSecondSide env sid session cls b is_pdf lab st evs =
       (.ok { sessionId := sid, status := .needs_front_side,
              documentType := session.document_type, detectedSide := cls.documentSide,
              isValid := true, isLegible := true,
              feedback := backAgainFeedback, label := lab },
        st, evs)) := by
  refine ⟨fun hv hl hd hu => ?_, fun hv hl hd hside hslot => ?_, fun hv hl hd hside hslot => ?_⟩
  · simp [handleSecondSide, hv, hl, hd, hu]
  · rcases hd with hd | hd <;> simp [handleSecondSide, hv, hl, hd, hside, hslot]
  · rcases hd with hd | hd <;> simp [handleSecondSide, hv, hl, hd, hside, hslot]

theorem C4_second_side_rejections_witness :
    clsSecondFrontAgain.isValidDocument = true ∧
    clsSecondFrontAgain.isLegible = true ∧
    (clsSecondFrontAgain.documentType = sessFrontOnly.document_type ∨
      clsSecondFrontAgain.documentType = .unknown) ∧
    clsSecondFrontAgain.documentSide = .front ∧
    truthy sessFrontOnly.sides_received_front = true ∧
    handleSecondSide envTrivial "s2" sessFrontOnly clsSecondFrontAgain 3 false none
        { now := 1 } [] =
      (.ok { sessionId := "s2", status := .needs_back_side,
             documentType := .cedula_ciudadania, detectedSide := .front,
             isValid := true, isLegible := true,
             feedback := frontAgainFeedback, label := none },
       { now := 1 }, []) := by
  refine ⟨rfl, rfl, Or.inl rfl, rfl, rfl, ?_⟩
  exact (C4_second_side_rejections envTrivial "s2" sessFrontOnly clsSecondFrontAgain
      3 false none { now := 1 } []).2.1 rfl rfl (Or.inl rfl) rfl rfl

/-- **C1.** Low-confidence gate on every completion path: alerts contain one
entry exactly for each critical field of the document type whose value is
non-null with confidence < 0.85; on each of the three completion paths
(two-sided, single-page, full-document), two or more alerts downgrade the
status from `COMPLETED` to `NEEDS_BETTER_IMAGE` with a null `generatedPdfUrl`
and no indefinite extracted-data record written, while the side/slot blob
upload still happens and the session `flow_state` still becomes `COMPLETED`;
with at most one alert the merged data is persisted indefinitely and a signed
URL is returned. -/
theorem C1_low_confidence_gate :
    (∀ (e : ExtractedData) (dt : DocumentType),
      buildAlerts e dt =
        ((CRITICAL_FIELDS dt).filter
            (fun fn => decide ((e fn).value ≠ none ∧
              (e fn).confidence < lowConfidenceThreshold))).map
          (fun fn => alertMessage (FIELD_LABELS fn) (pctOf (e fn).confidence))) ∧
    (∀ (env : Env) (sid : String) (session : Session) (dt : DocumentType)
       (side : DocumentSide) (cls : GeminiClassificationResult) (b : Bytes)
       (lab : Option String) (st : Store) (evs : List Event) (s0 : Session),
      lookupA st.sessions sid = some s0 →
      (completeTwoSides env sid session dt side cls b lab st evs).1.isOk = true →
      ∃ resp : ValidateResponse,
        (completeTwoSides env sid session dt side cls b lab st evs).1 = .ok resp ∧
        resp.alerts = buildAlerts (mergeExtractedData
            (session.extracted_data_first_side.getD ExtractedData.default)
            cls.extractedData) dt ∧
        Event.blobUpload (session_path sid
            (if side = .front then "enhanced_front.jpg" else "enhanced_back.jpg"))
          ∈ evsOf (completeTwoSides env sid session dt side cls b lab st evs) ∧
        (lookupA (storeOf (completeTwoSides env sid session dt side cls b lab st evs)).sessions
            sid).map (fun s1 => s1.flow_state) = some FlowState.COMPLETED ∧
        (2 ≤ resp.alerts.length →
          resp.status = .needs_better_image ∧ resp.generatedPdfUrl = none ∧
          (storeOf (completeTwoSides env sid session dt side cls b lab st evs)).extracted
            = st.extracted) ∧
        (resp.alerts.length ≤ 1 →
          resp.status = .completed ∧
          resp.generatedPdfUrl = some (env.generate_signed_url (session_path sid "final.pdf")) ∧
          (lookupA (storeOf (completeTwoSides env sid session dt side cls b lab st
              evs)).extracted sid).map
              (fun rec => (rec.label, rec.document_type, rec.extracted_data)) =
            some (pyOr lab session.label, dt, mergeExtractedData
              (session.extracted_data_first_side.getD ExtractedData.default)
              cls.extractedData))) ∧
    (∀ (env : Env) (sid : String) (dt : DocumentType) (side : DocumentSide)
       (cls : GeminiClassificationResult) (b : Bytes) (is_pdf : Bool)
       (lab : Option String) (st : Store) (evs : List Event) (s0 : Session),
      lookupA st.sessions sid = some s0 →
      ∃ resp : ValidateResponse,
        (completeSinglePage env sid dt side cls b is_pdf lab st evs).1 = .ok resp ∧
        resp.alerts = buildAlerts cls.extractedData dt ∧
        Event.blobUpload (session_path sid "source.jpg")
          ∈ evsOf (completeSinglePage env sid dt side cls b is_pdf lab st evs) ∧
        (lookupA (storeOf (completeSinglePage env sid dt side cls b is_pdf lab st evs)).sessions
            sid).map (fun s1 => s1.flow_state) = some FlowState.COMPLETED ∧
        (2 ≤ resp.alerts.length →
          resp.status = .needs_better_image ∧ resp.generatedPdfUrl = none ∧
          (storeOf (completeSinglePage env sid dt side cls b is_pdf lab st evs)).extracted
            = st.extracted) ∧
        (resp.alerts.length ≤ 1 →
          resp.status = .completed ∧
          resp.generatedPdfUrl = some (env.generate_signed_url (session_path sid "final.pdf")) ∧
          (lookupA (storeOf (completeSinglePage env sid dt side cls b is_pdf lab st
              evs)).extracted sid).map
              (fun rec => (rec.label, rec.document_type, rec.extracted_data)) =
            some (lab, dt, cls.extractedData))) ∧
    (∀ (env : Env) (sid : String) (dt : DocumentType)
       (cls : GeminiClassificationResult) (b : Bytes) (is_pdf : Bool)
       (lab : Option String) (st : Store) (evs : List Event) (s0 : Session),
      lookupA st.sessions sid = some s0 →
      ∃ resp : ValidateResponse,
        (completeFullDocument env sid dt cls b is_pdf lab st evs).1 = .ok resp ∧
        resp.alerts = buildAlerts cls.extractedData dt ∧
        Event.blobUpload (session_path sid (if is_pdf then "source.pdf" else "source.jpg"))
          ∈ evsOf (completeFullDocument env sid dt cls b is_pdf lab st evs) ∧
        (lookupA (storeOf (completeFullDocument env sid dt cls b is_pdf lab st evs)).sessions
            sid).map (fun s1 => s1.flow_state) = some FlowState.COMPLETED ∧
        (2 ≤ resp.alerts.length →
          resp.status = .needs_better_image ∧ resp.generatedPdfUrl = none ∧
          (storeOf (completeFullDocument env sid dt cls b is_pdf lab st evs)).extracted
            = st.extracted) ∧
        (resp.alerts.length ≤ 1 →
          resp.status = .completed ∧
          resp.generatedPdfUrl = some (env.generate_signed_url (session_path sid "final.pdf")) ∧
          (lookupA (storeOf (completeFullDocument env sid dt cls b is_pdf lab st
              evs)).extracted sid).map
              (fun rec => (rec.label, rec.document_type, rec.extracted_data)) =
            some (lab, dt, cls.extractedData))) :=
  ⟨buildAlerts_eq,
   fun env sid session dt side cls b lab st evs s0 hsess hok =>
     gate_two_sides env sid session dt side cls b lab st evs s0 hsess hok,
   fun env sid dt side cls b is_pdf lab st evs s0 hsess =>
     gate_single_page env sid dt side cls b is_pdf lab st evs s0 hsess,
   fun env sid dt cls b is_pdf lab st evs s0 hsess =>
     gate_full_document env sid dt cls b is_pdf lab st evs s0 hsess⟩

theorem C1_low_confidence_gate_witness :
    lookupA stLowConf.sessions "s2" = some sessFrontLowConf ∧
    (completeTwoSides envTrivial "s2" sessFrontLowConf .cedula_ciudadania .back clsBackLowConf
        3 none stLowConf []).1.isOk = true ∧
    ∃ resp : ValidateResponse,
      (completeTwoSides envTrivial "s2" sessFrontLowConf .cedula_ciudadania .back clsBackLowConf
          3 none stLowConf []).1 = .ok resp ∧
      2 ≤ resp.alerts.length ∧
      resp.status = .needs_better_image ∧
      resp.generatedPdfUrl = none ∧
      (storeOf (completeTwoSides envTrivial "s2" sessFrontLowConf .cedula_ciudadania .back
          clsBackLowConf 3 none stLowConf [])).extracted = stLowConf.extracted := by
  refine ⟨rfl, rfl, ?_⟩
  obtain ⟨resp, h1, h2, _, _, h5, _⟩ :=
    C1_low_confidence_gate.2.1 envTrivial "s2" sessFrontLowConf .cedula_ciudadania .back
      clsBackLowConf 3 none stLowConf [] sessFrontLowConf rfl rfl
  have hlen : 2 ≤ resp.alerts.length := by rw [h2]; decide
  obtain ⟨hs, hu, he⟩ := h5 hlen
  exact ⟨resp, h1, hlen, hs, hu, he⟩

/-- **C2.** `COMPLETED` and `ERROR` flow states are terminal: a further
upload against a `COMPLETED` session returns status `COMPLETED` with the
"already completed" message, makes no classification call and mutates no
store at all; and no execution of `process_upload` (against any session id,
or with none) ever changes the stored `flow_state` of a session that is in
`COMPLETED` or `ERROR`. -/
theorem C2_completed_terminal (env : Env) (st : Store) (fb : Bytes) (mime : String)
    (lab : Option String) :
    (∀ (sid : String) (s : Session),
      lookupA st.sessions sid = some s → ¬ s.expires_at < st.now →
      s.flow_state = .COMPLETED →
      process_upload env st fb mime (some sid) lab =
        (.ok { sessionId := sid, status := .completed, documentType := s.document_type,
               feedback := alreadyCompletedFeedback }, st, [])) ∧
    (∀ (sidOpt : Option String) (sid0 : String) (s0 s1 : Session),
      lookupA st.sessions sid0 = some s0 →
      (s0.flow_state = .COMPLETED ∨ s0.flow_state = .ERROR) →
      lookupA st.sessions st.freshId = none →
      lookupA (storeOf (process_upload env st fb mime sidOpt lab)).sessions sid0 = some s1 →
      s1.flow_state = s0.flow_state) := by
  constructor
  · intro sid s hs hexp hcomp
    have hget : get_session st sid = (some s, st, []) := by
      unfold get_session
      rw [hs]
      simp [hexp]
    simp only [process_upload, hget]
    simp [processAfterResolve, hcomp]
  · intro sidOpt sid0 s0 s1 h0 hterm hfresh h1
    rcases sidOpt with _ | sid
    · -- no session id: a fresh session is created under freshId ≠ sid0
      have hne : sid0 ≠ st.freshId := by
        intro he
        rw [he, hfresh] at h0
        cases h0
      simp only [process_upload, create_session] at h1
      rw [processAfterResolve_frame _ _ _ _ _ _ _ _ _ hne] at h1
      simp only [lookupA_setA_ne _ _ _ _ hne, h0] at h1
      cases h1
      rfl
    · rcases hl : lookupA st.sessions sid with _ | s
      · have hget : get_session st sid = (none, st, []) := by
          unfold get_session
          rw [hl]
        simp only [process_upload, hget, storeOf] at h1
        rw [h0] at h1
        cases h1
        rfl
      · by_cases hexp : s.expires_at < st.now
        · have hget : get_session st sid =
              (none, { st with sessions := removeA st.sessions sid },
               [.sessionDeleted sid]) := by
            unfold get_session
            rw [hl]
            simp [hexp]
          simp only [process_upload, hget, storeOf] at h1
          have := lookupA_removeA_sub _ _ _ _ h1
          rw [h0] at this
          cases this
          rfl
        · have hget : get_session st sid = (some s, st, []) := by
            unfold get_session
            rw [hl]
            simp [hexp]
          simp only [process_upload, hget] at h1
          by_cases hsid : sid0 = sid
          · subst hsid
            rw [hl] at h0
            cases h0
            rw [processAfterResolve_terminal env st [] sid0 s0 fb mime lab hterm] at h1
            rw [hl] at h1
            cases h1
            rfl
          · rw [processAfterResolve_frame _ _ _ _ _ _ _ _ _ hsid] at h1
            rw [h0] at h1
            cases h1
            rfl

theorem C2_completed_terminal_witness :
    lookupA stCompleted.sessions "s5" = some sessCompleted ∧
    ¬ sessCompleted.expires_at < stCompleted.now ∧
    sessCompleted.flow_state = .COMPLETED ∧
    process_upload envTrivial stCompleted 3 "image/jpeg" (some "s5") none =
      (.ok { sessionId := "s5", status := .completed, documentType := .cedula_ciudadania,
             feedback := alreadyCompletedFeedback }, stCompleted, []) ∧
    ((lookupA (storeOf (process_upload envTrivial stCompleted 3 "image/jpeg" (some "s5")
        none)).sessions "s5" = some sessCompleted) →
      sessCompleted.flow_state = sessCompleted.flow_state) := by
  refine ⟨rfl, by decide, rfl, ?_, ?_⟩
  · exact (C2_completed_terminal envTrivial stCompleted 3 "image/jpeg" none).1 "s5"
      sessCompleted rfl (by decide) rfl
  · intro h
    exact (C2_completed_terminal envTrivial stCompleted 3 "image/jpeg" none).2 (some "s5")
      "s5" sessCompleted sessCompleted rfl (Or.inl rfl) rfl h

/-- **C10.** A valid, legible, type-consistent classification whose detected
side is neither `FRONT` nor `BACK` nor a both-sides `FULL_DOCUMENT` passes
every rejection check of the `AWAITING_SECOND_SIDE` handler and falls through
to the two-sided completion, which treats every non-`FRONT` side as the back:
for a session whose only filled slot is the back, the upload overwrites the
`enhanced_back.jpg` blob and then the attempt to download the null front slot
raises, so the completion's error branch is reached; the blob write is
committed, the session record is not. -/
theorem C10_unknown_side_falls_through (env : Env) (sid : String) (session : Session)
    (cls : GeminiClassificationResult) (b : Bytes) (is_pdf : Bool) (lab : Option String)
    (st : Store) (evs : List Event) (bp : String)
    (hv : cls.isValidDocument = true) (hl : cls.isLegible = true)
    (ht : cls.documentType = session.document_type ∨ cls.documentType = .unknown)
    (hnf : cls.documentSide ≠ .front) (hnb : cls.documentSide ≠ .back)
    (hfd : ¬(cls.containsBothSides = true ∧ cls.documentSide = .full_document))
    (hfront : session.sides_received_front = none)
    (_hback : session.sides_received_back = some bp) :
    handleSecondSide env sid session cls b is_pdf lab st evs =
      completeTwoSides env sid session session.document_type cls.documentSide cls b lab st evs ∧
    (handleSecondSide env sid session cls b is_pdf lab st evs).1 =
      .error "download path is null" ∧
    (storeOf (handleSecondSide env sid session cls b is_pdf lab st evs)).sessions =
      st.sessions ∧
    lookupA (storeOf (handleSecondSide env sid session cls b is_pdf lab st evs)).blobs
        (session_path sid "enhanced_back.jpg") = some b ∧
    evsOf (handleSecondSide env sid session cls b is_pdf lab st evs) =
      evs ++ [.blobUpload (session_path sid "enhanced_back.jpg")] := by
  have hstep : handleSecondSide env sid session cls b is_pdf lab st evs =
      completeTwoSides env sid session session.document_type cls.documentSide cls b lab st evs := by
    rcases ht with h | h <;>
      simp [handleSecondSide, hv, hl, h, hnf, hnb, hfd, truthy, hfront]
  have hrun : completeTwoSides env sid session session.document_type cls.documentSide cls b
      lab st evs =
      (.error "download path is null",
       { st with blobs := setA st.blobs (session_path sid "enhanced_back.jpg") b },
       evs ++ [.blobUpload (session_path sid "enhanced_back.jpg")]) := by
    simp [completeTwoSides, hnf, hfront, upload_bytes, download_bytes]
  rw [hstep, hrun]
  exact ⟨rfl, rfl, rfl, lookupA_setA_self _ _ _, rfl⟩

theorem C10_unknown_side_falls_through_witness :
    clsSideUnknown.isValidDocument = true ∧
    clsSideUnknown.documentType = sessBackOnly.document_type ∧
    clsSideUnknown.documentSide ≠ .front ∧
    sessBackOnly.sides_received_front = none ∧
    sessBackOnly.sides_received_back = some "sessions/s2/enhanced_back.jpg" ∧
    (handleSecondSide envTrivial "s2" sessBackOnly clsSideUnknown 3 false none
        { now := 1 } []).1 = .error "download path is null" := by
  refine ⟨rfl, rfl, by decide, rfl, rfl, ?_⟩
  exact (C10_unknown_side_falls_through envTrivial "s2" sessBackOnly clsSideUnknown 3 false
      none { now := 1 } [] "sessions/s2/enhanced_back.jpg" rfl rfl (Or.inl rfl)
      (by decide) (by decide) (by decide) rfl rfl).2.1

/-- **C8, counterexample.** The claim says the illegible-second-side result
"conveys the still-needed side computed from which slot is empty".  It does
not: for the same valid-but-illegible classification, a session missing the
back side and a session missing the front side produce *identical* results
(the still-needed status computed in the source is dead code), so no part of
the returned result can convey which side to resend. -/
theorem C8_counterexample :
    truthy sessFrontOnly.sides_received_front = true ∧
    truthy sessBackOnly.sides_received_front = false ∧
    handleSecondSide envTrivial "s2" sessFrontOnly clsIllegible 3 false none { now := 1 } [] =
      handleSecondSide envTrivial "s2" sessBackOnly clsIllegible 3 false none { now := 1 } [] ∧
    (handleSecondSide envTrivial "s2" sessFrontOnly clsIllegible 3 false none { now := 1 } []).1 =
      .ok { sessionId := "s2", status := .needs_better_image,
            documentType := .cedula_ciudadania, detectedSide := .unknown,
            isValid := true, isLegible := false,
            feedback := "La imagen está borrosa.", label := none } :=
  ⟨rfl, rfl, rfl, rfl⟩

/-- **C8, amended.** In the `AWAITING_SECOND_SIDE` handler, a valid but not
legible classification returns status `NEEDS_BETTER_IMAGE` with the session's
established document type and the classifier's own feedback; a still-needed
side status is computed from which slot is empty but discarded, so the result
does not depend on the slots and nothing is written. -/
theorem C8_illegible_returns_needs_better_image (env : Env) (sid : String)
    (session : Session) (cls : GeminiClassificationResult) (b : Bytes) (is_pdf : Bool)
    (lab : Option String) (st : Store) (evs : List Event)
    (hv : cls.isValidDocument = true) (hl : cls.isLegible = false) :
    handleSecondSide env sid session cls b is_pdf lab st evs =
      (.ok { sessionId := sid, status := .needs_better_image,
             documentType := session.document_type, detectedSide := cls.documentSide,
             isValid := true, isLegible := false, feedback := cls.userFeedback,
             label := lab }, st, evs) := by
  simp [handleSecondSide, hv, hl]

/-- **C5.** Expired sessions are handled lazily and never recreated:
`get_session` on a session past `expires_at` deletes the record and reports
not-found; `process_upload` with a missing-or-expired session id returns
status `ERROR` with the start-over message, makes no classification call,
creates no session, and at most removes the expired record. -/
theorem C5_expired_sessions (env : Env) (st : Store) (fb : Bytes) (mime : String)
    (lab : Option String) (sid : String) :
    (∀ s, lookupA st.sessions sid = some s → s.expires_at < st.now →
      get_session st sid =
        (none, { st with sessions := removeA st.sessions sid }, [.sessionDeleted sid]) ∧
      lookupA (removeA st.sessions sid) sid = none) ∧
    ((get_session st sid).1 = none →
      process_upload env st fb mime (some sid) lab =
        (.ok { sessionId := sid, status := .error, feedback := sessionExpiredFeedback },
         (get_session st sid).2.1, (get_session st sid).2.2) ∧
      (∀ c, Event.classifyCall c ∉ (get_session st sid).2.2) ∧
      (∀ i, Event.sessionCreated i ∉ (get_session st sid).2.2) ∧
      (∀ i s', lookupA (get_session st sid).2.1.sessions i = some s' →
        lookupA st.sessions i = some s')) := by
  constructor
  · intro s hs hexp
    refine ⟨?_, lookupA_removeA_self _ _⟩
    unfold get_session
    rw [hs]
    simp [hexp]
  · intro hnone
    rcases hg : get_session st sid with ⟨o, st2, e2⟩
    rw [hg] at hnone
    simp only at hnone
    subst hnone
    have hres : process_upload env st fb mime (some sid) lab =
        (.ok { sessionId := sid, status := .error, feedback := sessionExpiredFeedback },
         st2, e2) := by
      unfold process_upload
      simp only [hg]
    rcases get_session_effects st sid with ⟨he, hst⟩ | ⟨he, hst⟩ <;>
      rw [hg] at he hst <;> simp only at he hst <;> subst he <;> subst hst
    · exact ⟨by simpa using hres, by simp, by simp, fun i s' h => h⟩
    · exact ⟨by simpa using hres, by simp, by simp,
        fun i s' h => lookupA_removeA_sub _ _ _ _ h⟩

theorem C5_expired_sessions_witness :
    lookupA ({ sessions := [("s9", sessExpired)], now := 50 } : Store).sessions "s9" =
        some sessExpired ∧
    sessExpired.expires_at < ({ sessions := [("s9", sessExpired)], now := 50 } : Store).now ∧
    (get_session { sessions := [("s9", sessExpired)], now := 50 } "s9").1 = none ∧
    get_session { sessions := [("s9", sessExpired)], now := 50 } "s9" =
      (none, { sessions := [], now := 50 }, [.sessionDeleted "s9"]) ∧
    process_upload envTrivial { sessions := [("s9", sessExpired)], now := 50 } 3 "image/jpeg"
        (some "s9") none =
      (.ok { sessionId := "s9", status := .error, feedback := sessionExpiredFeedback },
       { sessions := [], now := 50 }, [.sessionDeleted "s9"]) := by
  have h := C5_expired_sessions envTrivial { sessions := [("s9", sessExpired)], now := 50 }
      3 "image/jpeg" none "s9"
  refine ⟨rfl, by decide, rfl, ?_, ?_⟩
  · exact (h.1 sessExpired rfl (by decide)).1
  · exact (h.2 rfl).1

/-- **C7.** The label is NOT sticky through the API: `validate_document`
(main.py) never forwards `request.label` to `process_upload`, so a label
supplied with the first upload is dropped — the session stores `label=None`,
and the two-sided completion returns and persists `label=None` instead of the
the label of the first turn.  The state machine itself implements the stickiness
(`label or session.get("label")`): when the same two turns call
`process_upload` directly with the label, the completion returns and persists
the label given on the first turn. -/
theorem C7_label_dropped_at_api :
    ((lookupA (storeOf labelDemoRun1).sessions "s1").map (fun s => s.label) = some none) ∧
    (labelDemoRun1.1.toOption.map (fun r => r.label) = some none) ∧
    (labelDemoRun2.1.toOption.map (fun r => (r.status, r.label)) =
      some (FlowStatus.completed, none)) ∧
    ((lookupA (storeOf labelDemoRun2).extracted "s1").map (fun r => r.label) = some none) ∧
    ((lookupA (storeOf labelDemoRun2).extracted "s1").map (fun r => r.label) ≠
      some (some "cedula_reclamante")) ∧
    ((lookupA (storeOf labelDemoDirect1).sessions "s1").map (fun s => s.label) =
      some (some "cedula_reclamante")) ∧
    (labelDemoDirect2.1.toOption.map (fun r => (r.status, r.label)) =
      some (FlowStatus.completed, some "cedula_reclamante")) ∧
    ((lookupA (storeOf labelDemoDirect2).extracted "s1").map (fun r => r.label) =
      some (some "cedula_reclamante")) := by
  refine ⟨rfl, rfl, rfl, rfl, by decide, rfl, rfl, rfl⟩

theorem C8_illegible_returns_needs_better_image_witness :
    clsIllegible.isValidDocument = true ∧
    clsIllegible.isLegible = false ∧
    handleSecondSide envTrivial "s2" sessBackOnly clsIllegible 3 false none { now := 1 } [] =
      (.ok { sessionId := "s2", status := .needs_better_image,
             documentType := .cedula_ciudadania, detectedSide := .unknown,
             isValid := true, isLegible := false,
             feedback := "La imagen está borrosa.", label := none },
       { now := 1 }, []) := by
  refine ⟨rfl, rfl, ?_⟩
  exact C8_illegible_returns_needs_better_image envTrivial "s2" sessBackOnly clsIllegible
      3 false none { now := 1 } [] rfl rfl

end Validador
